import Mathlib

/-!
# Verification of `databases_companion/decorators.py`

A shallow embedding of the decorator module of the LibCompanion repository:
the session-lifecycle decorators of class `DatabaseDecorators` and the
argument validators of class `DTypeValidator`, together with proofs of the
specification claims about them.

Modelling conventions:
* Python runtime values are the inductive `Value`.  Python's `bool` is a
  subclass of `int`, which is reflected in `isinstance`.
* Python floats and decimals carry a rational payload; no claim depends on
  float rounding, only on dynamic type tests and on whether a decimal
  conversion succeeds.
* Dictionaries are association lists with first-match lookup; insertion
  removes any previous binding of the key, matching Python lookup semantics.
* Raising an exception is the `Except.error` branch of `Except PyError`;
  a Python function that may raise is modelled as
  `List Value → Dict → Except PyError Value` (positional args, keyword args).
* The session objects of the lifecycle decorators are opaque values
  (`Value.vSession id`); `commit` / `rollback` / `close` are modelled as
  emitted events (they are assumed not to raise, as the spec treats them as
  opaque collaborators), and logging calls are not modelled.
-/

/-- A Python runtime value, restricted to the types this module manipulates.
`vSession` stands for an opaque database-session object, identified by a
numeric id. -/
inductive Value where
  | vNone
  | vBool (b : Bool)
  | vInt (n : Int)
  | vFloat (q : Rat)
  | vStr (s : String)
  | vList (xs : List Value)
  | vDict (entries : List (String × Value))
  | vDecimal (q : Rat)
  | vSession (id : Nat)

/-- The Python exceptions this module can raise or catch.  `keyError` carries
the missing key, `userExc` stands for an arbitrary exception raised by a
wrapped user function. -/
inductive PyError where
  | typeError
  | valueError
  | invalidOperation
  | keyError (key : String)
  | userExc (msg : String)
deriving DecidableEq

/-- A Python dictionary with string keys, as an association list. -/
abbrev Dict : Type := List (String × Value)

/-- Python's `d.get(k)`: the first binding of `k`, if any. -/
def dlookup (d : Dict) (k : String) : Option Value :=
  match d with
  | [] => none
  | (k', v) :: rest => if k' = k then some v else dlookup rest k

/-- Remove every binding of `k` (used for `d.pop(k)` and re-insertion). -/
def dremove (d : Dict) (k : String) : Dict :=
  match d with
  | [] => []
  | (k', v) :: rest => if k' = k then dremove rest k else (k', v) :: dremove rest k

/-- Assignment `d[k] = v`: bind `k` to `v`, dropping any previous binding. -/
def dinsert (d : Dict) (k : String) (v : Value) : Dict :=
  dremove d k ++ [(k, v)]

/-- Python's `d.update(e)`: merge the entries of `e` into `d`, overwriting on
key collision. -/
def dupdate (d : Dict) (e : Dict) : Dict :=
  e.foldl (fun acc p => dinsert acc p.1 p.2) d

/-- Python truthiness for `Value` (used by `kwargs.get('db') or default`). -/
def truthy : Value → Bool
  | Value.vNone => false
  | Value.vBool b => b
  | Value.vInt n => n != 0
  | Value.vFloat q => q != 0
  | Value.vStr s => !s.isEmpty
  | Value.vList xs => !xs.isEmpty
  | Value.vDict entries => !entries.isEmpty
  | Value.vDecimal q => q != 0
  | Value.vSession _ => true

/-- The dynamic type tests the validators perform. -/
inductive PyType where
  | list
  | int
  | str
  | float
  | decimal

/-- Python `isinstance`.  Note that `bool` is a subclass of `int`, so a
boolean value satisfies the `int` test. -/
def isinstance : Value → PyType → Bool
  | Value.vList _, PyType.list => true
  | Value.vInt _, PyType.int => true
  | Value.vBool _, PyType.int => true
  | Value.vStr _, PyType.str => true
  | Value.vFloat _, PyType.float => true
  | Value.vDecimal _, PyType.decimal => true
  | _, _ => false

/-- Exact-runtime-type predicate, following the spec's words ("exactly of the
corresponding primitive type"): the value's own type is the named one, so a
boolean is NOT exactly an integer.  Kept for comparison with `isinstance`,
which is what the code actually runs. -/
def spec_exact_type : Value → PyType → Bool
  | Value.vList _, PyType.list => true
  | Value.vInt _, PyType.int => true
  | Value.vStr _, PyType.str => true
  | Value.vFloat _, PyType.float => true
  | Value.vDecimal _, PyType.decimal => true
  | _, _ => false

/-- Value of a digit string read most-significant first. -/
def natOfDigits (cs : List Char) : Option Nat :=
  match cs with
  | [] => none
  | _ => go cs 0
where
  go : List Char → Nat → Option Nat
    | [], acc => some acc
    | c :: rest, acc =>
      if c.isDigit then go rest (acc * 10 + (c.toNat - 48)) else none

/-- Parse the body of a decimal literal (after the optional sign):
`digits`, `digits.digits?`, or `.digits`. -/
def parseUnsignedDecimal (cs : List Char) : Option Rat :=
  match cs.splitOn '.' with
  | [intPart] =>
    match natOfDigits intPart with
    | some n => some (n : Rat)
    | none => none
  | [intPart, fracPart] =>
    if intPart.isEmpty && fracPart.isEmpty then none
    else
      let ip : Option Nat := if intPart.isEmpty then some 0 else natOfDigits intPart
      let fp : Option Nat := if fracPart.isEmpty then some 0 else natOfDigits fracPart
      match ip, fp with
      | some i, some f => some ((i : Rat) + (f : Rat) / ((10 : Rat) ^ fracPart.length))
      | _, _ => none
  | _ => none

/-- Parse a decimal literal with an optional leading sign, as Python's
`Decimal(str)` does (exponents and the special values are not modelled; no
claim depends on them). -/
def parseDecimalString (s : String) : Option Rat :=
  match s.toList with
  | '-' :: rest => (parseUnsignedDecimal rest).map (fun q => -q)
  | '+' :: rest => parseUnsignedDecimal rest
  | cs => parseUnsignedDecimal cs

/-- Python's `Decimal(value)` constructor: succeeds on decimals, ints, bools
(a subclass of int), floats and well-formed numeric strings; raises
`InvalidOperation` on a malformed string and `TypeError` on `None` and every
other type. -/
def pyDecimal : Value → Except PyError Value
  | Value.vDecimal q => Except.ok (Value.vDecimal q)
  | Value.vInt n => Except.ok (Value.vDecimal (n : Rat))
  | Value.vBool b => Except.ok (Value.vDecimal (if b then 1 else 0))
  | Value.vFloat q => Except.ok (Value.vDecimal q)
  | Value.vStr s =>
    match parseDecimalString s with
    | some q => Except.ok (Value.vDecimal q)
    | none => Except.error PyError.invalidOperation
  | _ => Except.error PyError.typeError

/-- The declared parameter list of a Python function, as far as binding is
concerned: the positional-or-keyword parameter names in order, the name of a
`*args` parameter if any, and the name of a `**kwargs` parameter if any. -/
structure Signature where
  params : List String
  varPositional : Option String
  varKeyword : Option String

/-- Keyword-binding phase of `Signature.bind_partial`: each keyword argument
either binds a declared parameter (raising `TypeError` if it is already
bound), or is collected into the var-keyword dictionary, or raises
`TypeError` when no `**` parameter exists. -/
def bindKwLoop (sig : Signature) : List (String × Value) → Dict → Dict → Except PyError Dict
  | [], acc, kwAcc =>
    match sig.varKeyword with
    | some kwName =>
      if kwAcc.isEmpty then Except.ok acc
      else Except.ok (acc ++ [(kwName, Value.vDict kwAcc)])
    | none => Except.ok acc
  | (k, v) :: rest, acc, kwAcc =>
    if sig.params.contains k then
      if (dlookup acc k).isSome then Except.error PyError.typeError
      else bindKwLoop sig rest (acc ++ [(k, v)]) kwAcc
    else
      match sig.varKeyword with
      | some _ => bindKwLoop sig rest acc (kwAcc ++ [(k, v)])
      | none => Except.error PyError.typeError

/-- Python's `inspect.signature(func).bind_partial(*args, **kwargs).arguments`:
positional arguments are matched to the declared parameters in order (the
excess going to the `*` parameter, or raising `TypeError` without one);
keyword arguments are then bound by `bindKwLoop`.  Parameters that receive
no argument are simply absent from the result — a missing parameter is not
an error. -/
def bindPartial (sig : Signature) (args : List Value) (kwargs : List (String × Value)) :
    Except PyError Dict :=
  if sig.params.length < args.length ∧ sig.varPositional = none then
    Except.error PyError.typeError
  else
    let posBound : Dict := sig.params.zip args
    let extraPos := args.drop sig.params.length
    let base : Dict :=
      match sig.varPositional with
      | some vpName => if extraPos.isEmpty then posBound else posBound ++ [(vpName, Value.vList extraPos)]
      | none => posBound
    bindKwLoop sig kwargs base []

/-- One flattening step of `_extract_bound_args`: if the binding of `key` is
a dictionary, pop it and merge its entries into the top level
(`bound_args.update(bound_args.pop(key))`); otherwise leave the mapping
unchanged. -/
def flattenKey (bound : Dict) (key : String) : Dict :=
  match dlookup bound key with
  | some (Value.vDict entries) => dupdate (dremove bound key) entries
  | _ => bound

/-- Method `DTypeValidator._extract_bound_args`: bind the call's arguments to the
function's parameter names, then flatten a dictionary bound under `kwargs`,
then one bound under `args`. -/
def extract_bound_args (sig : Signature) (args : List Value)
    (kwargs : List (String × Value)) : Except PyError Dict := do
  let bound ← bindPartial sig args kwargs
  pure (flattenKey (flattenKey bound "kwargs") "args")

/-- A wrapped Python function: positional arguments and keyword arguments in,
either a returned value or a raised exception out. -/
abbrev PyFunc : Type := List Value → Dict → Except PyError Value

/-- A `commit` / `rollback` / `close` call on a session object, recorded in
the order the decorator performs them. -/
inductive SessionEvent where
  | commit (s : Value)
  | rollback (s : Value)
  | close (s : Value)

/-- The sessions on which `commit` was called, in order. -/
def commitEvents : List SessionEvent → List Value
  | [] => []
  | SessionEvent.commit v :: rest => v :: commitEvents rest
  | _ :: rest => commitEvents rest

/-- The sessions on which `rollback` was called, in order. -/
def rollbackEvents : List SessionEvent → List Value
  | [] => []
  | SessionEvent.rollback v :: rest => v :: rollbackEvents rest
  | _ :: rest => rollbackEvents rest

/-- The sessions on which `close` was called, in order. -/
def closeEvents : List SessionEvent → List Value
  | [] => []
  | SessionEvent.close v :: rest => v :: closeEvents rest
  | _ :: rest => closeEvents rest

/-- The state built by `DatabaseDecorators.__init__(SessionLocal, Session)`:
`SessionLocal()` is called once, so the instance holds ONE session object,
identified here by its id, shared by every call that does not supply its
own. -/
structure DatabaseDecorators where
  SessionLocal : Nat

/-- Assignment `db = kwargs.get('db') or self.SessionLocal`: the session the wrapper
uses — the caller's `db` keyword argument when it is truthy, else the shared
default session. -/
def chosenDb (self : DatabaseDecorators) (kwargs : Dict) : Value :=
  let supplied := (dlookup kwargs "db").getD Value.vNone
  if truthy supplied then supplied else Value.vSession self.SessionLocal

/-- The invocation `func(*args, db=db, **kwargs)` appearing in both session
wrappers.  When the caller's keyword arguments already contain `db`, Python
raises `TypeError: got multiple values for keyword argument 'db'` before the
function body runs; otherwise `func` is called with `db` added to its keyword
arguments. -/
def sessionInvoke (func : PyFunc) (args : List Value) (kwargs : Dict)
    (dbv : Value) : Except PyError Value :=
  if (dlookup kwargs "db").isSome then Except.error PyError.typeError
  else func args (dinsert kwargs "db" dbv)

/-- The fixed payload returned when a lifecycle wrapper catches an
exception. -/
def errorPayload : Value :=
  Value.vDict [("message", Value.vStr "An unexpected error occurred. Please try again later.")]

/-- Method `DatabaseDecorators.session_handler_add_delete_update`: choose the
session, invoke the function; on success commit and return its result, on any
exception roll back and return `errorPayload`; in either case `finally`
closes the session last.  The returned pair is (wrapper's return value,
session events in order). -/
def session_handler_add_delete_update (self : DatabaseDecorators) (func : PyFunc)
    (args : List Value) (kwargs : Dict) : Value × List SessionEvent :=
  let dbv := chosenDb self kwargs
  match sessionInvoke func args kwargs dbv with
  | Except.ok result => (result, [SessionEvent.commit dbv, SessionEvent.close dbv])
  | Except.error _ => (errorPayload, [SessionEvent.rollback dbv, SessionEvent.close dbv])

/-- Method `DatabaseDecorators.session_handler_query`: identical to the mutating
wrapper but with no commit on success and no rollback on exception; the
session is still closed in the `finally` block. -/
def session_handler_query (self : DatabaseDecorators) (func : PyFunc)
    (args : List Value) (kwargs : Dict) : Value × List SessionEvent :=
  let dbv := chosenDb self kwargs
  match sessionInvoke func args kwargs dbv with
  | Except.ok result => (result, [SessionEvent.close dbv])
  | Except.error _ => (errorPayload, [SessionEvent.close dbv])

/-- The `{"message": "Bad Request", "errors": [reason]}` payload the
validators return on a failed check. -/
def badRequest (reason : String) : Value :=
  Value.vDict [("message", Value.vStr "Bad Request"),
               ("errors", Value.vList [Value.vStr reason])]

/-- The parameter loop of `DTypeValidator.validate_list`: looking up an
absent name raises `KeyError`; the first non-list value short-circuits with
the rejection payload (`some payload`); `none` means every named parameter
passed. -/
def validate_list_loop (bound : Dict) : List String → Except PyError (Option Value)
  | [] => Except.ok none
  | p :: rest =>
    match dlookup bound p with
    | none => Except.error (PyError.keyError p)
    | some v =>
      if isinstance v PyType.list then validate_list_loop bound rest
      else Except.ok (some (badRequest (p ++ " must be a list")))

/-- Decorator `DTypeValidator.validate_list(*param_names)` applied to a function with
signature `sig`, on one call: extract the bound arguments, check each named
parameter, and either return the rejection payload or call the original
function with the original arguments. -/
def validate_list (paramNames : List String) (sig : Signature) (func : PyFunc)
    (args : List Value) (kwargs : Dict) : Except PyError Value := do
  let bound ← extract_bound_args sig args kwargs
  match ← validate_list_loop bound paramNames with
  | some payload => Except.ok payload
  | none => func args kwargs

/-- The parameter loop of `DTypeValidator.validate_int` (note Python's
`isinstance(_, int)` also accepts booleans). -/
def validate_int_loop (bound : Dict) : List String → Except PyError (Option Value)
  | [] => Except.ok none
  | p :: rest =>
    match dlookup bound p with
    | none => Except.error (PyError.keyError p)
    | some v =>
      if isinstance v PyType.int then validate_int_loop bound rest
      else Except.ok (some (badRequest (p ++ " must be an integer")))

/-- Decorator `DTypeValidator.validate_int(*param_names)` on one call. -/
def validate_int (paramNames : List String) (sig : Signature) (func : PyFunc)
    (args : List Value) (kwargs : Dict) : Except PyError Value := do
  let bound ← extract_bound_args sig args kwargs
  match ← validate_int_loop bound paramNames with
  | some payload => Except.ok payload
  | none => func args kwargs

/-- The parameter loop of `DTypeValidator.validate_str`. -/
def validate_str_loop (bound : Dict) : List String → Except PyError (Option Value)
  | [] => Except.ok none
  | p :: rest =>
    match dlookup bound p with
    | none => Except.error (PyError.keyError p)
    | some v =>
      if isinstance v PyType.str then validate_str_loop bound rest
      else Except.ok (some (badRequest (p ++ " must be a string")))

/-- Decorator `DTypeValidator.validate_str(*param_names)` on one call. -/
def validate_str (paramNames : List String) (sig : Signature) (func : PyFunc)
    (args : List Value) (kwargs : Dict) : Except PyError Value := do
  let bound ← extract_bound_args sig args kwargs
  match ← validate_str_loop bound paramNames with
  | some payload => Except.ok payload
  | none => func args kwargs

/-- The parameter loop of `DTypeValidator.validate_float`. -/
def validate_float_loop (bound : Dict) : List String → Except PyError (Option Value)
  | [] => Except.ok none
  | p :: rest =>
    match dlookup bound p with
    | none => Except.error (PyError.keyError p)
    | some v =>
      if isinstance v PyType.float then validate_float_loop bound rest
      else Except.ok (some (badRequest (p ++ " must be float")))

/-- Decorator `DTypeValidator.validate_float(*param_names)` on one call. -/
def validate_float (paramNames : List String) (sig : Signature) (func : PyFunc)
    (args : List Value) (kwargs : Dict) : Except PyError Value := do
  let bound ← extract_bound_args sig args kwargs
  match ← validate_float_loop bound paramNames with
  | some payload => Except.ok payload
  | none => func args kwargs

/-- The parameter loop of `DTypeValidator.validate_decimal`: a name absent
from the mapping is skipped (`if param_name in bound_args`); a present
non-`Decimal` value is converted with `Decimal(value)`, whose result is
written back into the local mapping; only `ValueError` and
`InvalidOperation` are caught and turned into the rejection payload
(`Sum.inr`) — a `TypeError` (e.g. from `None`) propagates.  `Sum.inl` carries
the (locally updated) mapping when every named parameter passes. -/
def validate_decimal_loop (bound : Dict) : List String → Except PyError (Dict ⊕ Value)
  | [] => Except.ok (Sum.inl bound)
  | p :: rest =>
    match dlookup bound p with
    | none => validate_decimal_loop bound rest
    | some v =>
      if isinstance v PyType.decimal then validate_decimal_loop bound rest
      else
        match pyDecimal v with
        | Except.ok d => validate_decimal_loop (dinsert bound p d) rest
        | Except.error PyError.valueError =>
          Except.ok (Sum.inr (badRequest ("'" ++ p ++ "' must be a valid decimal.")))
        | Except.error PyError.invalidOperation =>
          Except.ok (Sum.inr (badRequest ("'" ++ p ++ "' must be a valid decimal.")))
        | Except.error e => Except.error e

/-- Decorator `DTypeValidator.validate_decimal(*param_names)` on one call: when the
loop passes, the original function is called with the ORIGINAL `args` and
`kwargs` — the updated mapping the loop produced is discarded. -/
def validate_decimal (paramNames : List String) (sig : Signature) (func : PyFunc)
    (args : List Value) (kwargs : Dict) : Except PyError Value := do
  let bound ← extract_bound_args sig args kwargs
  match ← validate_decimal_loop bound paramNames with
  | Sum.inl _ => func args kwargs
  | Sum.inr payload => Except.ok payload

/-! ## Fixtures used by the concrete theorems -/

/-- Signature of a one-parameter handler `def handler(x)`. -/
def sigX : Signature := ⟨["x"], none, none⟩

/-- Signature of a one-parameter handler `def handler(user_id)`. -/
def sigUser : Signature := ⟨["user_id"], none, none⟩

/-- Signature of a catch-all handler `def handler(**kwargs)`. -/
def sigVK : Signature := ⟨[], none, some "kwargs"⟩

/-- A handler that returns the string `"ran"` whatever its arguments. -/
def fRan : PyFunc := fun _ _ => Except.ok (Value.vStr "ran")

/-- A handler that returns the value bound to its keyword argument `x`. -/
def fEcho : PyFunc := fun _ kw => Except.ok ((dlookup kw "x").getD Value.vNone)

/-- A handler that always raises. -/
def fRaise : PyFunc := fun _ _ => Except.error (PyError.userExc "boom")

/-! ## Claim theorems -/

/-- C1: the specification claims that a call that supplies a `db` keyword
argument runs the wrapped function on that session, commits it and returns
the function's result.  The code instead executes
`func(*args, db=db, **kwargs)` with `db` still inside `kwargs`, so Python
raises `TypeError: got multiple values for keyword argument 'db'` inside the
`try` block on EVERY such call: the function is never invoked (the result
below does not depend on `func`), the supplied session is rolled back, the
generic error payload is returned, and the session is closed.  The
`kwargs.get('db')` lookup shows the supplied-session path is intended, so
this is a slip in the code, not in the claim. -/
theorem session_handler_supplied_db_always_errors (func : PyFunc) :
    session_handler_add_delete_update ⟨0⟩ func [] [("db", Value.vSession 5)] =
      (errorPayload,
       [SessionEvent.rollback (Value.vSession 5), SessionEvent.close (Value.vSession 5)]) := rfl

/-- C6: `validate_int("user_id")` rejects a call with `user_id="7"` with
exactly `{"message": "Bad Request", "errors": ["user_id must be an integer"]}`
without invoking the handler, and on `user_id=7` invokes the handler with the
original arguments and returns its result (for every handler `func`). -/
theorem validate_int_user_id_end_to_end (func : PyFunc) :
    validate_int ["user_id"] sigUser func [] [("user_id", Value.vStr "7")] =
        Except.ok (badRequest "user_id must be an integer") ∧
    validate_int ["user_id"] sigUser func [] [("user_id", Value.vInt 7)] =
        func [] [("user_id", Value.vInt 7)] :=
  ⟨rfl, rfl⟩

/-- C5 counterexample: the boolean `True` is not exactly of type `int`
(its type is `bool`), yet Python's `isinstance(True, int)` holds because
`bool` is a subclass of `int`, so `validate_int` lets it through and the
handler runs — refuting "no value outside the exact primitive type satisfies
the check". -/
theorem validate_int_accepts_bool :
    isinstance (Value.vBool true) PyType.int = true ∧
    spec_exact_type (Value.vBool true) PyType.int = false ∧
    validate_int ["x"] sigX fRan [] [("x", Value.vBool true)] =
      Except.ok (Value.vStr "ran") :=
  ⟨rfl, rfl, rfl⟩

/-- C5 amended: for a single validated parameter, each of `validate_int`,
`validate_str` and `validate_float` invokes the target exactly when the
value passes the corresponding `isinstance` test and otherwise returns the
rejection payload; the `str` and `float` tests accept exactly the values of
that primitive type (no coercion — a numeric string is not an int, a
whole-number float is not an int), but the `int` test also accepts
booleans, since Python's `bool` is a subclass of `int`. -/
theorem validators_check_isinstance (v : Value) (func : PyFunc) :
    (validate_int ["x"] sigX func [] [("x", v)] =
        if isinstance v PyType.int then func [] [("x", v)]
        else Except.ok (badRequest "x must be an integer")) ∧
    (validate_str ["x"] sigX func [] [("x", v)] =
        if isinstance v PyType.str then func [] [("x", v)]
        else Except.ok (badRequest "x must be a string")) ∧
    (validate_float ["x"] sigX func [] [("x", v)] =
        if isinstance v PyType.float then func [] [("x", v)]
        else Except.ok (badRequest "x must be float")) ∧
    (isinstance v PyType.int = true ↔ (∃ n, v = Value.vInt n) ∨ (∃ b, v = Value.vBool b)) ∧
    (isinstance v PyType.str = true ↔ ∃ s, v = Value.vStr s) ∧
    (isinstance v PyType.float = true ↔ ∃ q, v = Value.vFloat q) := by
  refine ⟨?_, ?_, ?_, ?_, ?_, ?_⟩ <;> cases v <;> first
    | rfl
    | simp [isinstance]

/-- C2: for every call of a function wrapped by the mutating-session
decorator, the chosen session is closed exactly once (the event list always
ends with its `close`), and when the invocation raises any exception the
wrapper rolls the session back exactly once, returns the fixed error payload
instead of propagating (its return type has no exception channel), and the
`close` still follows the rollback as the final step. -/
theorem session_handler_mut_exception_contract (self : DatabaseDecorators)
    (func : PyFunc) (args : List Value) (kwargs : Dict) :
    closeEvents (session_handler_add_delete_update self func args kwargs).2 =
      [chosenDb self kwargs] ∧
    (∀ e, sessionInvoke func args kwargs (chosenDb self kwargs) = Except.error e →
      session_handler_add_delete_update self func args kwargs =
        (errorPayload,
         [SessionEvent.rollback (chosenDb self kwargs),
          SessionEvent.close (chosenDb self kwargs)])) := by
  constructor
  · rcases h : sessionInvoke func args kwargs (chosenDb self kwargs) with r | r <;>
      simp [session_handler_add_delete_update, h, closeEvents]
  · intro e he
    simp [session_handler_add_delete_update, he]

/-- C2 witness: a wrapped function that raises, called with no `db` argument
on a decorator whose default session has id 0: the session is closed once,
and the wrapper returns the payload after rolling back. -/
theorem session_handler_mut_exception_contract_witness :
    closeEvents (session_handler_add_delete_update ⟨0⟩ fRaise [] []).2 =
      [Value.vSession 0] ∧
    session_handler_add_delete_update ⟨0⟩ fRaise [] [] =
      (errorPayload,
       [SessionEvent.rollback (Value.vSession 0), SessionEvent.close (Value.vSession 0)]) :=
  ⟨(session_handler_mut_exception_contract ⟨0⟩ fRaise [] []).1,
   (session_handler_mut_exception_contract ⟨0⟩ fRaise [] []).2 (PyError.userExc "boom") rfl⟩

/-- C7: for every call of a function wrapped by the read-only session
decorator, the event list is exactly one `close` of the chosen session — so
`commit` and `rollback` are never invoked and the session is closed exactly
once regardless of outcome — and when the invocation raises any exception
the wrapper returns the fixed error payload instead of propagating. -/
theorem session_handler_query_contract (self : DatabaseDecorators)
    (func : PyFunc) (args : List Value) (kwargs : Dict) :
    (session_handler_query self func args kwargs).2 =
      [SessionEvent.close (chosenDb self kwargs)] ∧
    (∀ e, sessionInvoke func args kwargs (chosenDb self kwargs) = Except.error e →
      (session_handler_query self func args kwargs).1 = errorPayload) := by
  constructor
  · rcases h : sessionInvoke func args kwargs (chosenDb self kwargs) with r | r <;>
      simp [session_handler_query, h]
  · intro e he
    simp [session_handler_query, he]

/-- C7 witness: a raising function wrapped by the read-only decorator with
default session id 0, called with no `db` argument: exactly one `close`, and
the fixed payload is returned. -/
theorem session_handler_query_contract_witness :
    (session_handler_query ⟨0⟩ fRaise [] []).2 = [SessionEvent.close (Value.vSession 0)] ∧
    (session_handler_query ⟨0⟩ fRaise [] []).1 = errorPayload :=
  ⟨(session_handler_query_contract ⟨0⟩ fRaise [] []).1,
   (session_handler_query_contract ⟨0⟩ fRaise [] []).2 (PyError.userExc "boom") rfl⟩

/-- C4: whenever the decimal validator's check passes on every named
parameter, the target function is invoked with exactly the original call
arguments: the converted values the loop wrote into the local bound-argument
mapping are discarded. -/
theorem validate_decimal_invokes_with_original_args (paramNames : List String)
    (sig : Signature) (func : PyFunc) (args : List Value) (kwargs : Dict)
    (bound updated : Dict)
    (hb : extract_bound_args sig args kwargs = Except.ok bound)
    (hl : validate_decimal_loop bound paramNames = Except.ok (Sum.inl updated)) :
    validate_decimal paramNames sig func args kwargs = func args kwargs := by
  simp [validate_decimal, hb, hl, Bind.bind, Except.bind]

/-- C4 witness: the call `handler(x="12.50")` under `validate_decimal("x")`:
the loop converts the string to `Decimal("12.50")` in its local mapping, yet
the handler receives the original string — `fEcho` returns its argument `x`
and the wrapper's result is the unconverted `"12.50"`. -/
theorem validate_decimal_invokes_with_original_args_witness :
    validate_decimal ["x"] sigX fEcho [] [("x", Value.vStr "12.50")] =
      fEcho [] [("x", Value.vStr "12.50")] ∧
    fEcho [] [("x", Value.vStr "12.50")] = Except.ok (Value.vStr "12.50") :=
  ⟨validate_decimal_invokes_with_original_args ["x"] sigX fEcho [] [("x", Value.vStr "12.50")]
      _ _ rfl rfl,
   rfl⟩

/-- C3 counterexample: the claim says a present parameter whose value `None`
fails decimal conversion makes the wrapper return the rejection payload
without propagating an exception; but `Decimal(None)` raises `TypeError`,
which is not in the `except (ValueError, InvalidOperation)` clause, so the
call `handler(x=None)` under `validate_decimal("x")` propagates the
`TypeError` and returns no payload. -/
theorem validate_decimal_none_propagates :
    validate_decimal ["x"] sigX fRan [] [("x", Value.vNone)] =
      Except.error PyError.typeError ∧
    validate_decimal ["x"] sigX fRan [] [("x", Value.vNone)] ≠
      Except.ok (badRequest "'x' must be a valid decimal.") := by
  refine ⟨rfl, ?_⟩
  intro h
  rw [show validate_decimal ["x"] sigX fRan [] [("x", Value.vNone)] =
        Except.error PyError.typeError from rfl] at h
  exact Except.noConfusion h

/-- Binding a single-parameter signature `def handler(p)` against the call
`handler(p=value)` yields the one-entry mapping, untouched by flattening as
long as the parameter is not one of the reserved names. -/
theorem extract_single (p : String) (v : Value) (hp1 : p ≠ "kwargs") (hp2 : p ≠ "args") :
    extract_bound_args ⟨[p], none, none⟩ [] [(p, v)] = Except.ok [(p, v)] := by
  simp [extract_bound_args, bindPartial, bindKwLoop, flattenKey, dlookup, hp1, hp2]

/-- C3 amended: a named, present parameter whose conversion fails with
`ValueError` or `InvalidOperation` — in particular malformed numeric text
such as `"abc"` — makes the decimal validator return the rejection payload
`{"message": "Bad Request", "errors": ["'<param>' must be a valid decimal."]}`
without invoking the target function (the result does not depend on `func`)
and without propagating; a conversion failure that raises `TypeError`
(the value `None`, or a non-convertible container type) instead propagates
uncaught, as the counterexample shows. -/
theorem validate_decimal_caught_failure_rejects (p : String) (v : Value) (func : PyFunc)
    (hp1 : p ≠ "kwargs") (hp2 : p ≠ "args")
    (hdec : isinstance v PyType.decimal = false)
    (hconv : pyDecimal v = Except.error PyError.invalidOperation ∨
             pyDecimal v = Except.error PyError.valueError) :
    validate_decimal [p] ⟨[p], none, none⟩ func [] [(p, v)] =
      Except.ok (badRequest ("'" ++ p ++ "' must be a valid decimal.")) := by
  have hb := extract_single p v hp1 hp2
  have hloop : validate_decimal_loop [(p, v)] [p] =
      Except.ok (Sum.inr (badRequest ("'" ++ p ++ "' must be a valid decimal."))) := by
    rcases hconv with h | h <;>
      simp [validate_decimal_loop, dlookup, hdec, h]
  simp [validate_decimal, hb, hloop, Bind.bind, Except.bind]

/-- C3 amended witness: `handler(price="abc")` under
`validate_decimal("price")` is rejected with the payload naming `price`. -/
theorem validate_decimal_caught_failure_rejects_witness :
    validate_decimal ["price"] ⟨["price"], none, none⟩ fRan [] [("price", Value.vStr "abc")] =
      Except.ok (badRequest ("'" ++ "price" ++ "' must be a valid decimal.")) :=
  validate_decimal_caught_failure_rejects "price" (Value.vStr "abc") fRan
    (by decide) (by decide) rfl (Or.inl rfl)

/-- Looking a key up in the concatenation of two association lists falls
through to the second list exactly when the first has no binding. -/
theorem dlookup_append (l1 l2 : Dict) (k : String) :
    dlookup (l1 ++ l2) k =
      match dlookup l1 k with
      | some v => some v
      | none => dlookup l2 k := by
  induction l1 with
  | nil => simp [dlookup]
  | cons p rest ih =>
    rcases p with ⟨k', v'⟩
    by_cases h : k' = k <;> simp [dlookup, h, ih]

/-- Removing a key removes every binding of it. -/
theorem dlookup_dremove_self (d : Dict) (k : String) :
    dlookup (dremove d k) k = none := by
  induction d with
  | nil => simp [dremove, dlookup]
  | cons p rest ih =>
    rcases p with ⟨k', v'⟩
    by_cases h : k' = k <;> simp [dremove, dlookup, h, ih]

/-- Removing a key leaves every other key's binding unchanged. -/
theorem dlookup_dremove_ne (d : Dict) (k k' : String) (h : k' ≠ k) :
    dlookup (dremove d k) k' = dlookup d k' := by
  have hk : ¬ k = k' := fun hk => h hk.symm
  induction d with
  | nil => simp [dremove]
  | cons p rest ih =>
    rcases p with ⟨k0, v0⟩
    by_cases h0 : k0 = k
    · subst h0
      simp [dremove, dlookup, hk, ih]
    · by_cases h1 : k0 = k' <;> simp [dremove, dlookup, h0, h1, h, hk, ih]

/-- An inserted binding is found. -/
theorem dlookup_dinsert_self (d : Dict) (k : String) (v : Value) :
    dlookup (dinsert d k v) k = some v := by
  rw [dinsert, dlookup_append, dlookup_dremove_self]
  simp [dlookup]

/-- Insertion leaves every other key's binding unchanged. -/
theorem dlookup_dinsert_ne (d : Dict) (k k' : String) (v : Value) (h : k' ≠ k) :
    dlookup (dinsert d k v) k' = dlookup d k' := by
  rw [dinsert, dlookup_append]
  rw [dlookup_dremove_ne d k k' h]
  have hk : ¬ k = k' := fun hk => h hk.symm
  rcases h2 : dlookup d k' with _ | w
  · simp [dlookup, hk]
  · rfl

/-- C8: the shared binding helper (i) binds without erroring on missing
parameters — with no arguments at all, every signature still binds to the
empty mapping; (ii) when the mapping holds a dictionary under the reserved
name `kwargs`, flattening removes that aggregate entry and merges its
entries into the top level; (iii) the merge overwrites on key collision and
leaves other keys alone (`dinsert` is the per-entry step of `dupdate`);
and (iv) consequently a validator targeting a parameter forwarded inside a
catch-all `**kwargs` inspects the nested value: under the signature
`def handler(**kwargs)` the call `handler(user_id=value)` is checked on
`value` itself. -/
theorem extract_bound_args_flattening :
    (∀ sig : Signature, extract_bound_args sig [] [] = Except.ok []) ∧
    (∀ (bound : Dict) (entries : List (String × Value)),
      dlookup bound "kwargs" = some (Value.vDict entries) →
      flattenKey bound "kwargs" = dupdate (dremove bound "kwargs") entries) ∧
    (∀ (d : Dict) (k : String) (v : Value),
      dlookup (dinsert d k v) k = some v ∧
      ∀ k', k' ≠ k → dlookup (dinsert d k v) k' = dlookup d k') ∧
    (∀ (func : PyFunc) (v : Value),
      validate_int ["user_id"] sigVK func [] [("user_id", v)] =
        if isinstance v PyType.int then func [] [("user_id", v)]
        else Except.ok (badRequest "user_id must be an integer")) := by
  refine ⟨?_, ?_, ?_, ?_⟩
  · intro sig
    rcases sig with ⟨ps, vp, vk⟩
    cases vp <;> cases vk <;>
      simp [extract_bound_args, bindPartial, bindKwLoop, flattenKey, dlookup,
        List.zip_nil_right]
  · intro bound entries h
    simp [flattenKey, h]
  · intro d k v
    exact ⟨dlookup_dinsert_self d k v, fun k' h => dlookup_dinsert_ne d k k' v h⟩
  · intro func v
    cases h : isinstance v PyType.int <;>
      simp [validate_int, sigVK, extract_bound_args, bindPartial, bindKwLoop, flattenKey,
        dupdate, dinsert, dremove, dlookup, validate_int_loop, h, Bind.bind, Except.bind,
        Pure.pure, Except.pure]

/-- C8 witness: concrete instances of the four binding/flattening
properties — the empty call binds, a nested `kwargs` dictionary is
flattened with overwrite, and `validate_int("user_id")` on
`def handler(**kwargs)` rejects the nested string `"7"`. -/
theorem extract_bound_args_flattening_witness :
    extract_bound_args sigVK [] [] = Except.ok [] ∧
    flattenKey [("a", Value.vInt 1), ("kwargs", Value.vDict [("a", Value.vInt 2)])] "kwargs" =
      dupdate (dremove [("a", Value.vInt 1), ("kwargs", Value.vDict [("a", Value.vInt 2)])]
        "kwargs") [("a", Value.vInt 2)] ∧
    dlookup (dinsert [("a", Value.vInt 1)] "a" (Value.vInt 2)) "a" = some (Value.vInt 2) ∧
    dlookup (dinsert [("a", Value.vInt 1)] "a" (Value.vInt 2)) "b" =
      dlookup [("a", Value.vInt 1)] "b" ∧
    validate_int ["user_id"] sigVK fRan [] [("user_id", Value.vStr "7")] =
      Except.ok (badRequest "user_id must be an integer") := by
  refine ⟨extract_bound_args_flattening.1 sigVK,
    extract_bound_args_flattening.2.1 _ [("a", Value.vInt 2)] rfl,
    (extract_bound_args_flattening.2.2.1 [("a", Value.vInt 1)] "a" (Value.vInt 2)).1,
    (extract_bound_args_flattening.2.2.1 [("a", Value.vInt 1)] "a" (Value.vInt 2)).2 "b"
      (by decide),
    ?_⟩
  have h := extract_bound_args_flattening.2.2.2 fRan (Value.vStr "7")
  simpa using h

/-- C9: on a call whose bound-argument mapping lacks the validated
parameter name, the list, integer, string and float validators raise an
uncaught `KeyError` naming the parameter (the subscript lookup
`bound_args[param_name]`), while the decimal validator's `in` guard skips
the absent name and invokes the target function. -/
theorem validators_absent_parameter (sig : Signature) (func : PyFunc)
    (args : List Value) (kwargs : Dict) (bound : Dict) (p : String)
    (hb : extract_bound_args sig args kwargs = Except.ok bound)
    (hp : dlookup bound p = none) :
    validate_list [p] sig func args kwargs = Except.error (PyError.keyError p) ∧
    validate_int [p] sig func args kwargs = Except.error (PyError.keyError p) ∧
    validate_str [p] sig func args kwargs = Except.error (PyError.keyError p) ∧
    validate_float [p] sig func args kwargs = Except.error (PyError.keyError p) ∧
    validate_decimal [p] sig func args kwargs = func args kwargs := by
  refine ⟨?_, ?_, ?_, ?_, ?_⟩ <;>
    simp [validate_list, validate_int, validate_str, validate_float, validate_decimal,
      validate_list_loop, validate_int_loop, validate_str_loop, validate_float_loop,
      validate_decimal_loop, hb, hp, Bind.bind, Except.bind]

/-- C9 witness: a handler `def handler(user_id)` called as `handler(user_id=3)`
and validated on the absent name `x`: the four strict validators raise
`KeyError('x')`, the decimal validator runs the handler. -/
theorem validators_absent_parameter_witness :
    validate_list ["x"] sigUser fRan [] [("user_id", Value.vInt 3)] =
      Except.error (PyError.keyError "x") ∧
    validate_int ["x"] sigUser fRan [] [("user_id", Value.vInt 3)] =
      Except.error (PyError.keyError "x") ∧
    validate_str ["x"] sigUser fRan [] [("user_id", Value.vInt 3)] =
      Except.error (PyError.keyError "x") ∧
    validate_float ["x"] sigUser fRan [] [("user_id", Value.vInt 3)] =
      Except.error (PyError.keyError "x") ∧
    validate_decimal ["x"] sigUser fRan [] [("user_id", Value.vInt 3)] =
      fRan [] [("user_id", Value.vInt 3)] :=
  validators_absent_parameter sigUser fRan [] [("user_id", Value.vInt 3)]
    [("user_id", Value.vInt 3)] "x" rfl rfl

/-- C10: both session-lifecycle wrappers are built over the structure field
`SessionLocal`, the ONE session created by `SessionLocal()` in `__init__`
and shared by all calls on the instance.  Whenever a call's keyword
arguments hold no truthy `db` value — `db` absent, `db=None`, or any falsy
`db` — the chosen session is that shared default, both wrappers close it,
and the `close` is the final session operation of the call.  Hence after a
first such fallback call has run, the shared default has been closed, and
every later fallback call (which by the first conjunct uses the very same
`Value.vSession self.SessionLocal`) operates on an already-closed
session. -/
theorem session_wrappers_reuse_closed_default (self : DatabaseDecorators)
    (func : PyFunc) (args : List Value) (kwargs : Dict)
    (h : truthy ((dlookup kwargs "db").getD Value.vNone) = false) :
    chosenDb self kwargs = Value.vSession self.SessionLocal ∧
    closeEvents (session_handler_add_delete_update self func args kwargs).2 =
      [Value.vSession self.SessionLocal] ∧
    (session_handler_add_delete_update self func args kwargs).2.getLast? =
      some (SessionEvent.close (Value.vSession self.SessionLocal)) ∧
    closeEvents (session_handler_query self func args kwargs).2 =
      [Value.vSession self.SessionLocal] ∧
    (session_handler_query self func args kwargs).2.getLast? =
      some (SessionEvent.close (Value.vSession self.SessionLocal)) := by
  have hc : chosenDb self kwargs = Value.vSession self.SessionLocal := by
    simp [chosenDb, h]
  refine ⟨hc, ?_, ?_, ?_, ?_⟩ <;>
    simp only [session_handler_add_delete_update, session_handler_query, hc] <;>
    rcases h2 : sessionInvoke func args kwargs (Value.vSession self.SessionLocal) with r | r <;>
    simp [h2, closeEvents, List.getLast?]

/-- C10 witness: a call with the explicit keyword argument `db=None` on a
decorator instance whose single constructed session has id 0: the fallback
session is chosen, closed once, and closed last, in both wrappers. -/
theorem session_wrappers_reuse_closed_default_witness :
    chosenDb ⟨0⟩ [("db", Value.vNone)] = Value.vSession 0 ∧
    closeEvents (session_handler_add_delete_update ⟨0⟩ fRan [] [("db", Value.vNone)]).2 =
      [Value.vSession 0] ∧
    (session_handler_add_delete_update ⟨0⟩ fRan [] [("db", Value.vNone)]).2.getLast? =
      some (SessionEvent.close (Value.vSession 0)) ∧
    closeEvents (session_handler_query ⟨0⟩ fRan [] [("db", Value.vNone)]).2 =
      [Value.vSession 0] ∧
    (session_handler_query ⟨0⟩ fRan [] [("db", Value.vNone)]).2.getLast? =
      some (SessionEvent.close (Value.vSession 0)) :=
  session_wrappers_reuse_closed_default ⟨0⟩ fRan [] [("db", Value.vNone)] rfl

/-- C1 witness instantiation: the behaviour above at a concrete wrapped
function. -/
theorem session_handler_supplied_db_always_errors_witness :
    session_handler_add_delete_update ⟨0⟩ fRan [] [("db", Value.vSession 5)] =
      (errorPayload,
       [SessionEvent.rollback (Value.vSession 5), SessionEvent.close (Value.vSession 5)]) :=
  session_handler_supplied_db_always_errors fRan

/-- C5 amended witness: at the concrete value `"7"` the integer check
rejects a numeric string. -/
theorem validators_check_isinstance_witness :
    validate_int ["x"] sigX fRan [] [("x", Value.vStr "7")] =
      Except.ok (badRequest "x must be an integer") := by
  have h := (validators_check_isinstance (Value.vStr "7") fRan).1
  simpa using h

/-- C6 witness instantiation: the end-to-end scenario at a concrete
handler. -/
theorem validate_int_user_id_end_to_end_witness :
    validate_int ["user_id"] sigUser fRan [] [("user_id", Value.vStr "7")] =
      Except.ok (badRequest "user_id must be an integer") ∧
    validate_int ["user_id"] sigUser fRan [] [("user_id", Value.vInt 7)] =
      fRan [] [("user_id", Value.vInt 7)] :=
  validate_int_user_id_end_to_end fRan
